import Mathlib

/-!
# Verification of the Wahoo release tracker (`update.py`)

A shallow embedding of the single source file `update.py` of the
`wahoo-release-tracker` repository, together with proofs about the claims of
its specification.

Modelling conventions:
* JSON values parsed by `response.json()` are modelled by the inductive `Json`
  (numbers restricted to integers; no claim concerns floats).  A parsed Python
  dict is an association list with distinct keys; the JSON parser collapses
  duplicate keys before this model applies.
* The SQLite `versions` table is a `DB`: the record list in insertion order
  together with the next AUTOINCREMENT id.  The `UNIQUE(device, version,
  release_type)` constraint is realised by the `hasTriple` check that decides
  whether `INSERT` raises `sqlite3.IntegrityError`.
* Parameter binding of `cursor.execute` follows the `sqlite3` module: `str`
  binds as itself, `int`/`bool` bind as integers rendered to TEXT by the TEXT
  affinity of the columns, `None` binds as NULL (which then violates the
  `NOT NULL` constraints, an `IntegrityError`), and every other value raises
  `ProgrammingError`, which no handler in `update.py` catches.
* Wall-clock time (`datetime('now', 'localtime')`) is an oracle `clock`
  mapping the insert id to the naive local timestamp, a natural number.
* Network and Bluesky behaviour are oracles: `net : String → Option Json`
  (`none` is the `requests.RequestException` path of `fetch_version_data`)
  and `BskyOracle` giving the success of successive login / post attempts.
* Observable side effects (the Pushover HTTP call, Bluesky API calls, the RSS
  regeneration) are accumulated as an event list; calls to `store_version`
  are likewise logged, so that "insert attempt" is a first-class notion.
* An uncaught Python exception terminates the process: it is modelled by the
  `crashed` flag, which freezes the remainder of the run.
-/

namespace WahooTracker

/-- A JSON value as returned by `response.json()`. -/
inductive Json where
  | null
  | bool (b : Bool)
  | num (n : Int)
  | str (s : String)
  | obj (kvs : List (String × Json))
  | arr (xs : List Json)

/-- Python truthiness (`if data:`): `None`, `False`, `0`, `""`, `{}` and `[]`
are falsy, everything else truthy. -/
def Json.truthy : Json → Bool
  | .null => false
  | .bool b => b
  | .num n => n != 0
  | .str s => s != ""
  | .obj kvs => !kvs.isEmpty
  | .arr xs => !xs.isEmpty

/-- Does the character list `p` occur at the head of `l`? -/
def listStartsWith : List Char → List Char → Bool
  | [], _ => true
  | _ :: _, [] => false
  | p :: ps, c :: cs => p == c && listStartsWith ps cs

/-- Does the character list `p` occur anywhere inside `l`? -/
def listHasSub (p : List Char) : List Char → Bool
  | [] => listStartsWith p []
  | c :: cs => listStartsWith p (c :: cs) || listHasSub p cs

/-- Python `key in data`.  On a dict it tests key membership, on a list it
tests element membership, on a string it tests for a substring; on `None`,
booleans and numbers it raises `TypeError` (`.error ()`). -/
def pyContains (data : Json) (key : String) : Except Unit Bool :=
  match data with
  | .obj kvs => .ok (kvs.any (fun kv => kv.1 == key))
  | .arr xs =>
      .ok (xs.any (fun x => match x with | .str s => s == key | _ => false))
  | .str s => .ok (listHasSub key.data s.data)
  | _ => .error ()

/-- Python `data[key]` for a string key: dict lookup (`KeyError` when the key
is absent); any non-dict raises `TypeError`.  Both errors are `.error ()` —
`update.py` catches neither. -/
def pyIndex (data : Json) (key : String) : Except Unit Json :=
  match data with
  | .obj kvs =>
      match kvs.find? (fun kv => kv.1 == key) with
      | some kv => .ok kv.2
      | none => .error ()
  | _ => .error ()

/-- One row of the `versions` table. -/
structure Record where
  id : Nat
  device : String
  version : String
  url : String
  release_type : String
  first_seen : Nat
deriving Repr, DecidableEq

/-- The `versions` table: rows in insertion order plus next AUTOINCREMENT id. -/
structure DB where
  records : List Record
  nextId : Nat
deriving Repr, DecidableEq

/-- The freshly created table (`init_db` on a new `versions.db`):
AUTOINCREMENT ids start at 1. -/
def initialDB : DB := { records := [], nextId := 1 }

/-- Model of `init_db`: `CREATE TABLE IF NOT EXISTS` — idempotent, no data change. -/
def init_db (db : DB) : DB := db

/-- Result of binding one Python value as a SQL parameter of a TEXT column. -/
inductive BindRes where
  | val (s : String)
  | nullv
  | unsupported
deriving Repr, DecidableEq

/-- The `sqlite3` parameter binding followed by TEXT-affinity conversion:
strings bind as themselves, ints (and bools, an int subclass) as their decimal
text, `None` as NULL, and dicts/lists raise `ProgrammingError`. -/
def sqliteBind : Json → BindRes
  | .str s => .val s
  | .num n => .val (toString n)
  | .bool b => .val (if b then "1" else "0")
  | .null => .nullv
  | .obj _ => .unsupported
  | .arr _ => .unsupported

/-- Does a row with this (device, version, release_type) triple exist?  This
decides whether the `INSERT` violates the UNIQUE constraint. -/
def hasTriple (rs : List Record) (device version rty : String) : Bool :=
  rs.any (fun r => r.device == device && r.version == version && r.release_type == rty)

/-- The environment-variable configuration: truthiness of the four optional
credential values loaded at startup. -/
structure Config where
  pushoverUserKey : Bool
  pushoverApiToken : Bool
  blueskyUsername : Bool
  blueskyAppPassword : Bool
deriving Repr, DecidableEq

/-- The process-wide Bluesky session state: whether the module-global `client`
is not `None`, plus counters indexing the login / post outcome oracles. -/
structure BskyState where
  clientSome : Bool
  loginCount : Nat
  postCount : Nat
deriving Repr, DecidableEq

/-- Outcomes of successive `client.login` and `client.send_post` calls. -/
structure BskyOracle where
  loginOk : Nat → Bool
  postOk : Nat → Bool

/-- An observable Bluesky API interaction: an authentication attempt or a
post attempt, with its outcome. -/
inductive BskyEv where
  | auth (ok : Bool)
  | post (ok : Bool)
deriving Repr, DecidableEq

def BskyEv.isPost : BskyEv → Bool
  | .post _ => true
  | .auth _ => false

def BskyEv.isAuth : BskyEv → Bool
  | .auth _ => true
  | .post _ => false

/-- Model of `login_to_bluesky`: returns `(state, returned-client-is-some, events)`.
With missing credentials it returns `None` without any API call.  Otherwise it
assigns a fresh `Client()` to the global (hence `clientSome := true`) and
attempts `client.login`; an exception is caught and `None` returned.  Callers
overwrite the global with the returned value. -/
def login_to_bluesky (cfg : Config) (o : BskyOracle) (st : BskyState) :
    BskyState × Bool × List BskyEv :=
  if !(cfg.blueskyUsername && cfg.blueskyAppPassword) then (st, false, [])
  else
    let ok := o.loginOk st.loginCount
    ({ st with clientSome := true, loginCount := st.loginCount + 1 }, ok, [.auth ok])

/-- Model of `post_to_bluesky`: lazily log in when the cached client is `None`; try
`send_post`; on failure re-login once and, if that succeeded, retry the post
once, swallowing a second failure.  All exceptions are caught, so the function
always returns. -/
def post_to_bluesky (cfg : Config) (o : BskyOracle) (st : BskyState) :
    BskyState × List BskyEv :=
  let entry :=
    if st.clientSome then (st, ([] : List BskyEv))
    else
      let r := login_to_bluesky cfg o st
      ({ r.1 with clientSome := r.2.1 }, r.2.2)
  let st1 := entry.1
  if !st1.clientSome then entry
  else
    let ok1 := o.postOk st1.postCount
    let st2 := { st1 with postCount := st1.postCount + 1 }
    let evs := entry.2 ++ [.post ok1]
    if ok1 then (st2, evs)
    else
      let r2 := login_to_bluesky cfg o st2
      let st3 := { r2.1 with clientSome := r2.2.1 }
      let evs := evs ++ r2.2.2
      if r2.2.1 then
        let ok2 := o.postOk st3.postCount
        ({ st3 with postCount := st3.postCount + 1 }, evs ++ [.post ok2])
      else (st3, evs)

/-- A run-level observable event: the Pushover HTTP call (with the message's
device/version/release-type data), a Bluesky API interaction, or a
regeneration of the RSS file. -/
inductive Ev where
  | pushoverCall (device version rty : String)
  | bsky (e : BskyEv)
  | rssGen
deriving Repr, DecidableEq

/-- Is the event an outbound push or social notification call? -/
def Ev.isNotifCall : Ev → Bool
  | .pushoverCall _ _ _ => true
  | .bsky _ => true
  | .rssGen => false

/-- Model of `send_pushover_alert`: with a missing user key or API token it only logs;
otherwise it performs the HTTP post (whose transport failure is swallowed). -/
def send_pushover_alert (cfg : Config) (device version rty : String) : List Ev :=
  if !(cfg.pushoverUserKey && cfg.pushoverApiToken) then []
  else [.pushoverCall device version rty]

/-- How a `store_version` call ended: a successful insert, an
`sqlite3.IntegrityError` caught by its handler (duplicate triple or a NULL
parameter), or an uncaught exception (`ProgrammingError` from binding an
unsupported parameter type) that propagates to the caller. -/
inductive StoreRes where
  | inserted
  | integrityCaught
  | raised
deriving Repr, DecidableEq

structure StoreResult where
  db : DB
  bsky : BskyState
  events : List Ev
  res : StoreRes
deriving Repr, DecidableEq

/-- Model of `store_version`: `INSERT` the row; on success notify the configured sinks;
an `IntegrityError` (duplicate, or NULL from a `None` parameter) is caught and
only logged; binding a dict/list raises `ProgrammingError`, which propagates
(`finally` still closes the connection, leaving the table unchanged). -/
def store_version (cfg : Config) (o : BskyOracle) (db : DB) (bsky : BskyState)
    (now : Nat) (device : String) (version apk_url : Json) (rty : String) :
    StoreResult :=
  match sqliteBind version, sqliteBind apk_url with
  | .val v, .val u =>
      if hasTriple db.records device v rty then
        { db := db, bsky := bsky, events := [], res := .integrityCaught }
      else
        let row : Record :=
          { id := db.nextId, device := device, version := v, url := u,
            release_type := rty, first_seen := now }
        let db' : DB := { records := db.records ++ [row], nextId := db.nextId + 1 }
        let evP :=
          if cfg.pushoverUserKey && cfg.pushoverApiToken then
            send_pushover_alert cfg device v rty
          else []
        let bskyR :=
          if cfg.blueskyUsername && cfg.blueskyAppPassword then
            post_to_bluesky cfg o bsky
          else (bsky, [])
        { db := db', bsky := bskyR.1, events := evP ++ bskyR.2.map Ev.bsky,
          res := .inserted }
  | .unsupported, _ => { db := db, bsky := bsky, events := [], res := .raised }
  | _, .unsupported => { db := db, bsky := bsky, events := [], res := .raised }
  | _, _ => { db := db, bsky := bsky, events := [], res := .integrityCaught }

/-- Model of `fetch_version_data`: the HTTP fetch; every `requests.RequestException`
(timeout, non-2xx, malformed body) is folded into `none` by the oracle. -/
def fetch_version_data (net : String → Option Json) (url : String) : Option Json :=
  net url

/-- The state threaded through one `main` run: the table, the cached Bluesky
session, the emitted events, the log of `store_version` calls
(device, release_type, version, url), the `new_version_recorded` flag, and
whether an uncaught exception has terminated the run. -/
structure RunState where
  db : DB
  bsky : BskyState
  events : List Ev
  calls : List (String × String × Json × Json)
  newFlag : Bool
  crashed : Bool

/-- The body of `main`'s inner loop for one release type: if both
`"<rty>-version"` and `"<rty>-url"` are present, call `store_version` and set
`new_version_recorded = True` — note that `store_version` returns normally in
the duplicate case (it caught the `IntegrityError` itself), so the flag is set
for duplicates too and main's `except sqlite3.IntegrityError` clause is dead.
A `TypeError` from `in` / indexing, or a `ProgrammingError` escaping
`store_version`, is uncaught: the run crashes. -/
def attemptStep (cfg : Config) (o : BskyOracle) (clock : Nat → Nat)
    (device : String) (data : Json) (st : RunState) (rty : String) : RunState :=
  if st.crashed then st
  else
    match pyContains data (rty ++ "-version"), pyContains data (rty ++ "-url") with
    | .ok hv, .ok hu =>
        if hv && hu then
          match pyIndex data (rty ++ "-version"), pyIndex data (rty ++ "-url") with
          | .ok ver, .ok u =>
              let r := store_version cfg o st.db st.bsky (clock st.db.nextId) device ver u rty
              { db := r.db, bsky := r.bsky, events := st.events ++ r.events,
                calls := st.calls ++ [(device, rty, ver, u)],
                newFlag := st.newFlag || (r.res != StoreRes.raised),
                crashed := r.res == StoreRes.raised }
          | _, _ => { st with crashed := true }
        else st
    | _, _ => { st with crashed := true }

/-- The fixed release-type order of `main`'s inner loop. -/
def releaseTypes : List String := ["std", "beta", "alpha"]

/-- One iteration of `main`'s device loop: truthy fetched data is scanned for
the three release types in order; `None` (fetch failure) and falsy data take
the `Invalid data` branch, changing nothing. -/
def processDevice (cfg : Config) (o : BskyOracle) (clock : Nat → Nat)
    (st : RunState) (device : String) (data : Option Json) : RunState :=
  if st.crashed then st
  else
    match data with
    | some d =>
        if d.truthy then releaseTypes.foldl (attemptStep cfg o clock device d) st
        else st
    | none => st

/-- The device loop of `main` over a configured (name, url) list. -/
def runDevices (cfg : Config) (o : BskyOracle) (clock : Nat → Nat)
    (net : String → Option Json) (st : RunState)
    (devs : List (String × String)) : RunState :=
  devs.foldl (fun s du => processDevice cfg o clock s du.1 (fetch_version_data net du.2)) st

/-- The `URLS` mapping, in Python 3.7+ dict iteration (insertion) order. -/
def URLS : List (String × String) :=
  [("elemnt", "https://bolt.wahoofitness.com/boltapp/version.json"),
   ("bolt", "https://bolt.wahoofitness.com/boltapp/version.json-bolt"),
   ("bolt2", "https://bolt.wahoofitness.com/boltapp/version.json-bolt2"),
   ("roam", "https://bolt.wahoofitness.com/boltapp/version.json-roam"),
   ("roam1.1", "https://bolt.wahoofitness.com/boltapp/version.json-roam1.1"),
   ("roam2", "https://bolt.wahoofitness.com/boltapp/version.json-roam2"),
   ("ace", "https://bolt.wahoofitness.com/boltapp/version.json-ace")]

/-- A fresh process run of `main`: `init_db`, the device loop over `URLS`,
then `generate_rss()` iff `new_version_recorded` was set (and the run did not
die from an uncaught exception first). -/
def mainRun (cfg : Config) (o : BskyOracle) (clock : Nat → Nat)
    (net : String → Option Json) (db0 : DB) (bsky0 : BskyState) : RunState :=
  let st0 : RunState :=
    { db := init_db db0, bsky := bsky0, events := [], calls := [],
      newFlag := false, crashed := false }
  let st := runDevices cfg o clock net st0 URLS
  if st.newFlag && !st.crashed then { st with events := st.events ++ [.rssGen] }
  else st

/-! ## The feed builder (`generate_rss`) -/

/-- Insert a record into a list already sorted by `first_seen` descending,
after all entries with a greater-or-equal timestamp (a stable insertion). -/
def insortDesc (r : Record) : List Record → List Record
  | [] => [r]
  | x :: xs => if r.first_seen ≤ x.first_seen then x :: insortDesc r xs else r :: x :: xs

/-- The feed query
`SELECT ... FROM versions ORDER BY first_seen DESC LIMIT 100`.
The query names no tie-break for equal `first_seen`; SQLite leaves the order
of such ties unspecified, and the model refines it to the table-scan order
(ascending rowid), realised here as a stable sort of the insertion-ordered
record list. -/
def recentRecords (db : DB) : List Record :=
  (db.records.foldl (fun acc r => insortDesc r acc) []).take 100

/-- A display timezone, modelled by its fixed offset from UTC in minutes
(daylight-saving variation is irrelevant to the claims below). -/
structure Timezone where
  utcOffset : Int
deriving Repr, DecidableEq

/-- One `<item>` of the generated feed document. -/
structure FeedEntry where
  title : String
  link : String
  description : String
  pubDate : Int
deriving Repr, DecidableEq

/-- One feed item as `generate_rss` renders it.  `pubDate` follows the code:
the stored naive `first_seen` text is parsed, localized **as UTC**
(`pytz.utc.localize`) and converted to the display timezone
(`America/Denver`), so the rendered wall time is
`first_seen + displayTz.utcOffset`.  Timestamps are minutes since an epoch;
the claims below concern the rendered instant, not its RFC-822 spelling. -/
def rssItem (displayTz : Timezone) (r : Record) : FeedEntry :=
  { title := r.device ++ " - " ++ r.version ++ " (" ++ r.release_type ++ ")"
    link := r.url
    description := "Version " ++ r.version ++ " (" ++ r.release_type ++ ") for " ++ r.device
    pubDate := (r.first_seen : Int) + displayTz.utcOffset }

/-- Model of `generate_rss`: render the up-to-100 most recent records as feed items
(the surrounding fixed channel metadata carries no record data). -/
def generate_rss (displayTz : Timezone) (db : DB) : List FeedEntry :=
  (recentRecords db).map (rssItem displayTz)

/-- Modelled from the spec: the publication timestamp the specification
describes — `first_seen`, written by the store in the store's local timezone,
converted **from the store's local timezone** to the display timezone. -/
def specPubDate (first_seen : Int) (storeTz displayTz : Timezone) : Int :=
  first_seen - storeTz.utcOffset + displayTz.utcOffset

/-! ## Auxiliary notions used by the theorems -/

/-- Values that `sqlite3` binds as SQL scalars (everything except dicts and
lists, which raise `ProgrammingError`). -/
def scalarJson : Json → Bool
  | .null => true
  | .bool _ => true
  | .num _ => true
  | .str _ => true
  | .obj _ => false
  | .arr _ => false

/-- A fetch result the device loop survives: a JSON object whose values all
bind as SQL scalars, or any falsy value (which `main` skips).  Truthy
non-objects (or dict/list manifest values) can crash the run with an uncaught
`TypeError` / `ProgrammingError`. -/
def manifestOk : Json → Bool
  | .obj kvs => kvs.all (fun kv => scalarJson kv.2)
  | d => !d.truthy

def manifestOkOpt : Option Json → Bool
  | none => true
  | some d => manifestOk d

/-- Key presence in a parsed JSON object. -/
def objHas (kvs : List (String × Json)) (k : String) : Bool :=
  kvs.any (fun kv => kv.1 == k)

/-- Value lookup in a parsed JSON object (defaulting to `null`, only used
under an `objHas` guard). -/
def objGet (kvs : List (String × Json)) (k : String) : Json :=
  ((kvs.find? (fun kv => kv.1 == k)).map (fun kv => kv.2)).getD .null

/-- The deduplication key of a row. -/
def tripleOf (r : Record) : String × String × String :=
  (r.device, r.version, r.release_type)

/-- The UNIQUE(device, version, release_type) invariant of the table. -/
def Uniq (db : DB) : Prop := (db.records.map tripleOf).Nodup

/-- Records sorted newest-first by creation time. -/
def DescSorted (l : List Record) : Prop :=
  l.Pairwise (fun a b => b.first_seen ≤ a.first_seen)

/-- The inputs of one scheduled invocation of the program: configuration,
Bluesky outcome oracle, wall clock, network behaviour, and the fresh
per-process Bluesky session state. -/
structure RunInput where
  cfg : Config
  o : BskyOracle
  clock : Nat → Nat
  net : String → Option Json
  bsky0 : BskyState

/-- The table contents after a sequence of scheduled runs. -/
def runAll (rs : List RunInput) (db0 : DB) : DB :=
  rs.foldl (fun db ri => (mainRun ri.cfg ri.o ri.clock ri.net db ri.bsky0).db) db0

/-! ## Basic lemmas about the store -/

lemma hasTriple_append (l1 l2 : List Record) (d v rt : String) :
    hasTriple (l1 ++ l2) d v rt = (hasTriple l1 d v rt || hasTriple l2 d v rt) := by
  simp [hasTriple, List.any_append]

lemma hasTriple_mono {l1 : List Record} (l2 : List Record) {d v rt : String}
    (h : hasTriple l1 d v rt = true) : hasTriple (l1 ++ l2) d v rt = true := by
  simp [hasTriple_append, h]

lemma hasTriple_iff_mem {rs : List Record} {d v rt : String} :
    hasTriple rs d v rt = true ↔ (d, v, rt) ∈ rs.map tripleOf := by
  simp only [hasTriple, List.any_eq_true, List.mem_map, tripleOf,
    Bool.and_eq_true, beq_iff_eq, Prod.mk.injEq]
  tauto

lemma store_version_dup {cfg : Config} {o : BskyOracle} {db : DB} {bsky : BskyState}
    {now : Nat} {device : String} {version apk_url : Json} {rty v u : String}
    (hv : sqliteBind version = .val v) (hu : sqliteBind apk_url = .val u)
    (ht : hasTriple db.records device v rty = true) :
    store_version cfg o db bsky now device version apk_url rty =
      { db := db, bsky := bsky, events := [], res := .integrityCaught } := by
  simp [store_version, hv, hu, ht]

lemma store_version_records (cfg : Config) (o : BskyOracle) (db : DB) (bsky : BskyState)
    (now : Nat) (device : String) (version apk_url : Json) (rty : String) :
    ∃ tail, (store_version cfg o db bsky now device version apk_url rty).db.records
        = db.records ++ tail ∧ ∀ r ∈ tail, r.device = device := by
  cases hv : sqliteBind version with
  | val v =>
      cases hu : sqliteBind apk_url with
      | val u =>
          cases ht : hasTriple db.records device v rty
          · exact ⟨[⟨db.nextId, device, v, u, rty, now⟩],
              by simp [store_version, hv, hu, ht], by simp⟩
          · exact ⟨[], by simp [store_version, hv, hu, ht], by simp⟩
      | nullv => exact ⟨[], by simp [store_version, hv, hu], by simp⟩
      | unsupported => exact ⟨[], by simp [store_version, hv, hu], by simp⟩
  | nullv =>
      cases hu : sqliteBind apk_url with
      | val u => exact ⟨[], by simp [store_version, hv, hu], by simp⟩
      | nullv => exact ⟨[], by simp [store_version, hv, hu], by simp⟩
      | unsupported => exact ⟨[], by simp [store_version, hv, hu], by simp⟩
  | unsupported => exact ⟨[], by simp [store_version, hv], by simp⟩

/-- An insert attempt whose parameters bind as scalars never lets an
exception escape `store_version`. -/
lemma store_version_not_raised {cfg : Config} {o : BskyOracle} {db : DB} {bsky : BskyState}
    {now : Nat} {device : String} {version apk_url : Json} {rty : String}
    (hv : sqliteBind version ≠ .unsupported) (hu : sqliteBind apk_url ≠ .unsupported) :
    (store_version cfg o db bsky now device version apk_url rty).res ≠ .raised := by
  cases hveq : sqliteBind version with
  | val v =>
      cases hueq : sqliteBind apk_url with
      | val u =>
          cases ht : hasTriple db.records device v rty <;>
            simp [store_version, hveq, hueq, ht]
      | nullv => simp [store_version, hveq, hueq]
      | unsupported => exact absurd hueq hu
  | nullv =>
      cases hueq : sqliteBind apk_url with
      | val u => simp [store_version, hveq, hueq]
      | nullv => simp [store_version, hveq, hueq]
      | unsupported => exact absurd hueq hu
  | unsupported => exact absurd hveq hv

/-- After a `store_version` call whose parameters bound to `v`/`u`, the
(device, v, rty) triple is present (it either already was, or was inserted). -/
lemma store_version_hasTriple (cfg : Config) (o : BskyOracle) (db : DB) (bsky : BskyState)
    (now : Nat) (device : String) (rty : String) {version apk_url : Json} {v u : String}
    (hv : sqliteBind version = .val v) (hu : sqliteBind apk_url = .val u) :
    hasTriple (store_version cfg o db bsky now device version apk_url rty).db.records
      device v rty = true := by
  cases ht : hasTriple db.records device v rty
  · rw [show (store_version cfg o db bsky now device version apk_url rty).db.records
        = db.records ++ [⟨db.nextId, device, v, u, rty, now⟩] from by
      simp [store_version, hv, hu, ht]]
    rw [hasTriple_append, ht]
    simp [hasTriple]
  · rw [store_version_dup hv hu ht]
    exact ht

lemma attemptStep_crashed {cfg : Config} {o : BskyOracle} {clock : Nat → Nat}
    {device : String} {data : Json} {st : RunState} {rty : String} (h : st.crashed = true) :
    attemptStep cfg o clock device data st rty = st := by
  simp [attemptStep, h]

lemma attemptFold_crashed (cfg : Config) (o : BskyOracle) (clock : Nat → Nat)
    (device : String) (data : Json) (rtys : List String) {st : RunState}
    (h : st.crashed = true) :
    rtys.foldl (attemptStep cfg o clock device data) st = st := by
  induction rtys with
  | nil => rfl
  | cons a l ih => rw [List.foldl_cons, attemptStep_crashed h]; exact ih

lemma attemptStep_shape (cfg : Config) (o : BskyOracle) (clock : Nat → Nat)
    (device : String) (data : Json) (st : RunState) (rty : String) :
    ∃ dtail etail,
      (attemptStep cfg o clock device data st rty).db.records = st.db.records ++ dtail ∧
      (attemptStep cfg o clock device data st rty).events = st.events ++ etail ∧
      ∀ r ∈ dtail, r.device = device := by
  unfold attemptStep
  split
  · exact ⟨[], [], by simp, by simp, by simp⟩
  split
  · split
    · split
      · obtain ⟨tail, htail, hdev⟩ :=
          store_version_records cfg o st.db st.bsky (clock st.db.nextId) device _ _ rty
        exact ⟨tail, _, by simpa using htail, rfl, hdev⟩
      · exact ⟨[], [], by simp, by simp, by simp⟩
    · exact ⟨[], [], by simp, by simp, by simp⟩
  · exact ⟨[], [], by simp, by simp, by simp⟩

lemma attemptFold_shape (cfg : Config) (o : BskyOracle) (clock : Nat → Nat)
    (device : String) (data : Json) (rtys : List String) :
    ∀ st : RunState, ∃ dtail etail,
      (rtys.foldl (attemptStep cfg o clock device data) st).db.records
          = st.db.records ++ dtail ∧
      (rtys.foldl (attemptStep cfg o clock device data) st).events = st.events ++ etail ∧
      ∀ r ∈ dtail, r.device = device := by
  induction rtys with
  | nil => intro st; exact ⟨[], [], by simp, by simp, by simp⟩
  | cons rty rest ih =>
      intro st
      obtain ⟨d1, e1, hd1, he1, hdev1⟩ := attemptStep_shape cfg o clock device data st rty
      obtain ⟨d2, e2, hd2, he2, hdev2⟩ := ih (attemptStep cfg o clock device data st rty)
      refine ⟨d1 ++ d2, e1 ++ e2, ?_, ?_, ?_⟩
      · rw [List.foldl_cons, hd2, hd1, List.append_assoc]
      · rw [List.foldl_cons, he2, he1, List.append_assoc]
      · intro r hr
        rcases List.mem_append.mp hr with h | h
        · exact hdev1 r h
        · exact hdev2 r h

lemma processDevice_shape (cfg : Config) (o : BskyOracle) (clock : Nat → Nat)
    (st : RunState) (device : String) (data : Option Json) :
    ∃ dtail etail,
      (processDevice cfg o clock st device data).db.records = st.db.records ++ dtail ∧
      (processDevice cfg o clock st device data).events = st.events ++ etail ∧
      ∀ r ∈ dtail, r.device = device := by
  unfold processDevice
  split
  · exact ⟨[], [], by simp, by simp, by simp⟩
  · split
    · split
      · exact attemptFold_shape cfg o clock device _ releaseTypes st
      · exact ⟨[], [], by simp, by simp, by simp⟩
    · exact ⟨[], [], by simp, by simp, by simp⟩

lemma runDevices_shape (cfg : Config) (o : BskyOracle) (clock : Nat → Nat)
    (net : String → Option Json) (devs : List (String × String)) :
    ∀ st : RunState, ∃ dtail etail,
      (runDevices cfg o clock net st devs).db.records = st.db.records ++ dtail ∧
      (runDevices cfg o clock net st devs).events = st.events ++ etail := by
  induction devs with
  | nil => intro st; exact ⟨[], [], by simp [runDevices], by simp [runDevices]⟩
  | cons du rest ih =>
      intro st
      obtain ⟨d1, e1, hd1, he1, _⟩ :=
        processDevice_shape cfg o clock st du.1 (fetch_version_data net du.2)
      obtain ⟨d2, e2, hd2, he2⟩ := ih (processDevice cfg o clock st du.1 (fetch_version_data net du.2))
      refine ⟨d1 ++ d2, e1 ++ e2, ?_, ?_⟩
      · rw [runDevices, List.foldl_cons]
        rw [show (rest.foldl (fun s du => processDevice cfg o clock s du.1
            (fetch_version_data net du.2)) (processDevice cfg o clock st du.1
            (fetch_version_data net du.2))) = runDevices cfg o clock net
            (processDevice cfg o clock st du.1 (fetch_version_data net du.2)) rest from rfl]
        rw [hd2, hd1, List.append_assoc]
      · rw [runDevices, List.foldl_cons]
        rw [show (rest.foldl (fun s du => processDevice cfg o clock s du.1
            (fetch_version_data net du.2)) (processDevice cfg o clock st du.1
            (fetch_version_data net du.2))) = runDevices cfg o clock net
            (processDevice cfg o clock st du.1 (fetch_version_data net du.2)) rest from rfl]
        rw [he2, he1, List.append_assoc]

/-! ## The device loop on well-formed manifests -/

lemma find?_of_any {α : Type} {l : List α} {p : α → Bool} (h : l.any p = true) :
    ∃ x, l.find? p = some x := by
  cases hf : l.find? p
  · obtain ⟨x, hx, hpx⟩ := List.any_eq_true.mp h
    exact absurd hpx (List.find?_eq_none.mp hf x hx)
  · exact ⟨_, rfl⟩

lemma pyContains_obj (kvs : List (String × Json)) (k : String) :
    pyContains (.obj kvs) k = .ok (objHas kvs k) := rfl

lemma pyIndex_obj {kvs : List (String × Json)} {k : String} (h : objHas kvs k = true) :
    pyIndex (.obj kvs) k = .ok (objGet kvs k) := by
  obtain ⟨kv, hkv⟩ :=
    find?_of_any (show kvs.any (fun kv => kv.1 == k) = true from h)
  simp [pyIndex, objGet, hkv]

lemma objGet_scalar {kvs : List (String × Json)} {k : String}
    (hall : kvs.all (fun kv => scalarJson kv.2) = true) (hh : objHas kvs k = true) :
    scalarJson (objGet kvs k) = true := by
  obtain ⟨kv, hkv⟩ :=
    find?_of_any (show kvs.any (fun kv => kv.1 == k) = true from hh)
  have hmem := List.mem_of_find?_eq_some hkv
  have hs := List.all_eq_true.mp hall _ hmem
  simpa [objGet, hkv] using hs

lemma scalar_bind_ne_unsupported {j : Json} (h : scalarJson j = true) :
    sqliteBind j ≠ .unsupported := by
  cases j <;> simp_all [sqliteBind, scalarJson]

/-- The inner-loop step on a scalar-valued object manifest when both keys of
the release type are present: a `store_version` call is made and logged, the
`new_version_recorded` flag is set, and the run does not crash. -/
lemma attemptStep_obj_hit {cfg : Config} {o : BskyOracle} {clock : Nat → Nat}
    {device : String} {kvs : List (String × Json)} {st : RunState} {rty : String}
    (hall : kvs.all (fun kv => scalarJson kv.2) = true)
    (hv : objHas kvs (rty ++ "-version") = true) (hu : objHas kvs (rty ++ "-url") = true)
    (hc : st.crashed = false) :
    attemptStep cfg o clock device (.obj kvs) st rty =
      ⟨(store_version cfg o st.db st.bsky (clock st.db.nextId) device
          (objGet kvs (rty ++ "-version")) (objGet kvs (rty ++ "-url")) rty).db,
       (store_version cfg o st.db st.bsky (clock st.db.nextId) device
          (objGet kvs (rty ++ "-version")) (objGet kvs (rty ++ "-url")) rty).bsky,
       st.events ++ (store_version cfg o st.db st.bsky (clock st.db.nextId) device
          (objGet kvs (rty ++ "-version")) (objGet kvs (rty ++ "-url")) rty).events,
       st.calls ++ [(device, rty, objGet kvs (rty ++ "-version"), objGet kvs (rty ++ "-url"))],
       true, false⟩ := by
  have hnr : (store_version cfg o st.db st.bsky (clock st.db.nextId) device
      (objGet kvs (rty ++ "-version")) (objGet kvs (rty ++ "-url")) rty).res ≠ .raised :=
    store_version_not_raised (scalar_bind_ne_unsupported (objGet_scalar hall hv))
      (scalar_bind_ne_unsupported (objGet_scalar hall hu))
  simp only [attemptStep, hc, Bool.false_eq_true, if_false, pyContains_obj, hv, hu,
    Bool.and_self, if_true, pyIndex_obj hv, pyIndex_obj hu]
  simp [hnr]

/-- The inner-loop step on an object manifest when the key pair of the
release type is incomplete: nothing happens. -/
lemma attemptStep_obj_miss {cfg : Config} {o : BskyOracle} {clock : Nat → Nat}
    {device : String} {kvs : List (String × Json)} {st : RunState} {rty : String}
    (hmiss : (objHas kvs (rty ++ "-version") && objHas kvs (rty ++ "-url")) = false)
    (hc : st.crashed = false) :
    attemptStep cfg o clock device (.obj kvs) st rty = st := by
  simp only [attemptStep, hc, Bool.false_eq_true, if_false, pyContains_obj, hmiss]

lemma attemptFold_no_crash {cfg : Config} {o : BskyOracle} {clock : Nat → Nat}
    {device : String} {kvs : List (String × Json)}
    (hall : kvs.all (fun kv => scalarJson kv.2) = true) (rtys : List String) :
    ∀ st : RunState, st.crashed = false →
      (rtys.foldl (attemptStep cfg o clock device (.obj kvs)) st).crashed = false := by
  induction rtys with
  | nil => intro st hc; exact hc
  | cons rty rest ih =>
      intro st hc
      rw [List.foldl_cons]
      cases hb : objHas kvs (rty ++ "-version") && objHas kvs (rty ++ "-url")
      · rw [attemptStep_obj_miss hb hc]; exact ih st hc
      · rw [Bool.and_eq_true] at hb
        obtain ⟨hv, hu⟩ := hb
        rw [attemptStep_obj_hit hall hv hu hc]
        exact ih _ rfl

lemma processDevice_no_crash {cfg : Config} {o : BskyOracle} {clock : Nat → Nat}
    {st : RunState} {device : String} {data : Option Json}
    (hc : st.crashed = false) (hwf : manifestOkOpt data = true) :
    (processDevice cfg o clock st device data).crashed = false := by
  match data with
  | none => simpa [processDevice, hc] using hc
  | some (.obj kvs) =>
      have hall : kvs.all (fun kv => scalarJson kv.2) = true := by
        simpa [manifestOkOpt, manifestOk] using hwf
      by_cases ht : (Json.obj kvs).truthy = true
      · simpa [processDevice, hc, ht] using attemptFold_no_crash hall releaseTypes st hc
      · simp only [Bool.not_eq_true] at ht
        simpa [processDevice, hc, ht] using hc
  | some .null => simpa [processDevice, hc, Json.truthy] using hc
  | some (.bool b) =>
      have hb : b = false := by simpa [manifestOkOpt, manifestOk, Json.truthy] using hwf
      simpa [processDevice, hc, Json.truthy, hb] using hc
  | some (.num n) =>
      have hn : (n != 0) = false := by simpa [manifestOkOpt, manifestOk, Json.truthy] using hwf
      simpa [processDevice, hc, Json.truthy, hn] using hc
  | some (.str s) =>
      have hs : (s != "") = false := by simpa [manifestOkOpt, manifestOk, Json.truthy] using hwf
      simpa [processDevice, hc, Json.truthy, hs] using hc
  | some (.arr xs) =>
      have hx : xs.isEmpty = true := by
        simpa [manifestOkOpt, manifestOk, Json.truthy] using hwf
      simpa [processDevice, hc, Json.truthy, hx] using hc

/-! ## Replaying a run against a table that already covers it (idempotence) -/

lemma store_version_raised_left {cfg : Config} {o : BskyOracle} {db : DB} {bsky : BskyState}
    {now : Nat} {device : String} {version apk_url : Json} {rty : String}
    (hv : sqliteBind version = .unsupported) :
    store_version cfg o db bsky now device version apk_url rty =
      { db := db, bsky := bsky, events := [], res := .raised } := by
  simp [store_version, hv]

lemma store_version_raised_right {cfg : Config} {o : BskyOracle} {db : DB} {bsky : BskyState}
    {now : Nat} {device : String} {version apk_url : Json} {rty : String}
    (hv : sqliteBind version ≠ .unsupported) (hu : sqliteBind apk_url = .unsupported) :
    store_version cfg o db bsky now device version apk_url rty =
      { db := db, bsky := bsky, events := [], res := .raised } := by
  cases hveq : sqliteBind version with
  | val v => simp [store_version, hveq, hu]
  | nullv => simp [store_version, hveq, hu]
  | unsupported => exact absurd hveq hv

lemma store_version_null_caught {cfg : Config} {o : BskyOracle} {db : DB} {bsky : BskyState}
    {now : Nat} {device : String} {version apk_url : Json} {rty : String}
    (h : sqliteBind version = .nullv ∨ sqliteBind apk_url = .nullv)
    (hv : sqliteBind version ≠ .unsupported) (hu : sqliteBind apk_url ≠ .unsupported) :
    store_version cfg o db bsky now device version apk_url rty =
      { db := db, bsky := bsky, events := [], res := .integrityCaught } := by
  cases hveq : sqliteBind version with
  | val v =>
      cases hueq : sqliteBind apk_url with
      | val u =>
          rcases h with h | h
          · exact absurd (hveq.symm.trans h) (by simp)
          · exact absurd (hueq.symm.trans h) (by simp)
      | nullv => simp [store_version, hveq, hueq]
      | unsupported => exact absurd hueq hu
  | nullv =>
      cases hueq : sqliteBind apk_url with
      | val u => simp [store_version, hveq, hueq]
      | nullv => simp [store_version, hveq, hueq]
      | unsupported => exact absurd hueq hu
  | unsupported => exact absurd hveq hv

/-- Replaying one inner-loop step against a state `t` whose table already
contains every triple the step (run from `s`) leaves present: `t`'s table,
session and events do not change, and the crash behaviour is identical. -/
lemma attemptStep_replay (cfg cfg' : Config) (o o' : BskyOracle) (clock clock' : Nat → Nat)
    (device : String) (data : Json) {s t : RunState} (rty : String)
    (hc : t.crashed = s.crashed)
    (cover : ∀ dv vv rt,
      hasTriple (attemptStep cfg o clock device data s rty).db.records dv vv rt = true →
      hasTriple t.db.records dv vv rt = true) :
    (attemptStep cfg' o' clock' device data t rty).db = t.db ∧
    (attemptStep cfg' o' clock' device data t rty).bsky = t.bsky ∧
    (attemptStep cfg' o' clock' device data t rty).events = t.events ∧
    (attemptStep cfg' o' clock' device data t rty).crashed =
      (attemptStep cfg o clock device data s rty).crashed := by
  cases hsc : s.crashed with
  | true =>
      rw [hsc] at hc
      rw [attemptStep_crashed hc, attemptStep_crashed hsc]
      exact ⟨rfl, rfl, rfl, hc.trans hsc.symm⟩
  | false =>
      have htc : t.crashed = false := by rw [hc, hsc]
      cases hcv : pyContains data (rty ++ "-version") with
      | error e => simp [attemptStep, hsc, htc, hcv]
      | ok hv =>
          cases hcu : pyContains data (rty ++ "-url") with
          | error e => simp [attemptStep, hsc, htc, hcv, hcu]
          | ok hu =>
              cases hb : hv && hu with
              | false => simp [attemptStep, hsc, htc, hcv, hcu, hb, hc]
              | true =>
                  cases hiv : pyIndex data (rty ++ "-version") with
                  | error e => simp [attemptStep, hsc, htc, hcv, hcu, hb, hiv]
                  | ok ver =>
                      cases hiu : pyIndex data (rty ++ "-url") with
                      | error e => simp [attemptStep, hsc, htc, hcv, hcu, hb, hiv, hiu]
                      | ok u =>
                          cases hbv : sqliteBind ver with
                          | unsupported =>
                              simp [attemptStep, hsc, htc, hcv, hcu, hb, hiv, hiu,
                                store_version_raised_left hbv]
                          | nullv =>
                              cases hbu : sqliteBind u with
                              | unsupported =>
                                  simp [attemptStep, hsc, htc, hcv, hcu, hb, hiv, hiu,
                                    store_version_raised_right
                                      (show sqliteBind ver ≠ BindRes.unsupported by
                                        simp [hbv]) hbu]
                              | val uu =>
                                  simp [attemptStep, hsc, htc, hcv, hcu, hb, hiv, hiu,
                                    store_version_null_caught (Or.inl hbv)
                                      (show sqliteBind ver ≠ BindRes.unsupported by
                                        simp [hbv])
                                      (show sqliteBind u ≠ BindRes.unsupported by
                                        simp [hbu])]
                              | nullv =>
                                  simp [attemptStep, hsc, htc, hcv, hcu, hb, hiv, hiu,
                                    store_version_null_caught (Or.inl hbv)
                                      (show sqliteBind ver ≠ BindRes.unsupported by
                                        simp [hbv])
                                      (show sqliteBind u ≠ BindRes.unsupported by
                                        simp [hbu])]
                          | val v =>
                              cases hbu : sqliteBind u with
                              | unsupported =>
                                  simp [attemptStep, hsc, htc, hcv, hcu, hb, hiv, hiu,
                                    store_version_raised_right
                                      (show sqliteBind ver ≠ BindRes.unsupported by
                                        simp [hbv]) hbu]
                              | nullv =>
                                  simp [attemptStep, hsc, htc, hcv, hcu, hb, hiv, hiu,
                                    store_version_null_caught (Or.inr hbu)
                                      (show sqliteBind ver ≠ BindRes.unsupported by
                                        simp [hbv])
                                      (show sqliteBind u ≠ BindRes.unsupported by
                                        simp [hbu])]
                              | val uu =>
                                  have hsres :
                                      (store_version cfg o s.db s.bsky (clock s.db.nextId)
                                        device ver u rty).res ≠ .raised :=
                                    store_version_not_raised (by simp [hbv]) (by simp [hbu])
                                  have hst : hasTriple t.db.records device v rty = true := by
                                    refine cover device v rty ?_
                                    have hgot := store_version_hasTriple cfg o s.db s.bsky
                                      (clock s.db.nextId) device rty hbv hbu
                                    simpa [attemptStep, hsc, hcv, hcu, hb, hiv, hiu] using hgot
                                  simp [attemptStep, hsc, htc, hcv, hcu, hb, hiv, hiu,
                                    store_version_dup hbv hbu hst, hsres]

lemma runDevices_cons (cfg : Config) (o : BskyOracle) (clock : Nat → Nat)
    (net : String → Option Json) (st : RunState) (du : String × String)
    (rest : List (String × String)) :
    runDevices cfg o clock net st (du :: rest) =
      runDevices cfg o clock net
        (processDevice cfg o clock st du.1 (fetch_version_data net du.2)) rest := rfl

lemma attemptFold_replay (cfg cfg' : Config) (o o' : BskyOracle) (clock clock' : Nat → Nat)
    (device : String) (data : Json) (rtys : List String) :
    ∀ s t : RunState, t.crashed = s.crashed →
      (∀ dv vv rt,
        hasTriple ((rtys.foldl (attemptStep cfg o clock device data) s)).db.records dv vv rt
            = true →
        hasTriple t.db.records dv vv rt = true) →
      (rtys.foldl (attemptStep cfg' o' clock' device data) t).db = t.db ∧
      (rtys.foldl (attemptStep cfg' o' clock' device data) t).bsky = t.bsky ∧
      (rtys.foldl (attemptStep cfg' o' clock' device data) t).events = t.events ∧
      (rtys.foldl (attemptStep cfg' o' clock' device data) t).crashed =
        (rtys.foldl (attemptStep cfg o clock device data) s).crashed := by
  induction rtys with
  | nil => intro s t hc _; exact ⟨rfl, rfl, rfl, hc⟩
  | cons rty rest ih =>
      intro s t hc cover
      have cover1 : ∀ dv vv rt,
          hasTriple (attemptStep cfg o clock device data s rty).db.records dv vv rt = true →
          hasTriple t.db.records dv vv rt = true := by
        intro dv vv rt h
        refine cover dv vv rt ?_
        rw [List.foldl_cons]
        obtain ⟨dtail, etail, hd, _, _⟩ := attemptFold_shape cfg o clock device data rest
          (attemptStep cfg o clock device data s rty)
        rw [hd]
        exact hasTriple_mono _ h
      obtain ⟨h1, h2, h3, h4⟩ :=
        attemptStep_replay cfg cfg' o o' clock clock' device data rty hc cover1
      have cover2 : ∀ dv vv rt,
          hasTriple ((rest.foldl (attemptStep cfg o clock device data)
              (attemptStep cfg o clock device data s rty))).db.records dv vv rt = true →
          hasTriple (attemptStep cfg' o' clock' device data t rty).db.records dv vv rt
            = true := by
        intro dv vv rt h
        rw [h1]
        refine cover dv vv rt ?_
        rw [List.foldl_cons]
        exact h
      obtain ⟨g1, g2, g3, g4⟩ := ih (attemptStep cfg o clock device data s rty)
        (attemptStep cfg' o' clock' device data t rty) h4 cover2
      rw [List.foldl_cons, List.foldl_cons]
      exact ⟨g1.trans h1, g2.trans h2, g3.trans h3, g4⟩

lemma processDevice_replay (cfg cfg' : Config) (o o' : BskyOracle) (clock clock' : Nat → Nat)
    (device : String) (data : Option Json) {s t : RunState}
    (hc : t.crashed = s.crashed)
    (cover : ∀ dv vv rt,
      hasTriple (processDevice cfg o clock s device data).db.records dv vv rt = true →
      hasTriple t.db.records dv vv rt = true) :
    (processDevice cfg' o' clock' t device data).db = t.db ∧
    (processDevice cfg' o' clock' t device data).bsky = t.bsky ∧
    (processDevice cfg' o' clock' t device data).events = t.events ∧
    (processDevice cfg' o' clock' t device data).crashed =
      (processDevice cfg o clock s device data).crashed := by
  cases hsc : s.crashed with
  | true =>
      have htc : t.crashed = true := by rw [hc, hsc]
      refine ⟨?_, ?_, ?_, ?_⟩ <;> simp [processDevice, hsc, htc]
  | false =>
      have htc : t.crashed = false := by rw [hc, hsc]
      cases data with
      | none =>
          refine ⟨?_, ?_, ?_, ?_⟩ <;> simp [processDevice, hsc, htc, hc]
      | some d =>
          cases hdt : d.truthy with
          | false =>
              refine ⟨?_, ?_, ?_, ?_⟩ <;> simp [processDevice, hsc, htc, hdt, hc]
          | true =>
              have cover1 : ∀ dv vv rt,
                  hasTriple ((releaseTypes.foldl (attemptStep cfg o clock device d) s)).db.records
                      dv vv rt = true →
                  hasTriple t.db.records dv vv rt = true := by
                intro dv vv rt h
                refine cover dv vv rt ?_
                simpa [processDevice, hsc, hdt] using h
              have hrep := attemptFold_replay cfg cfg' o o' clock clock' device d
                releaseTypes s t hc cover1
              refine ⟨?_, ?_, ?_, ?_⟩
              · simpa [processDevice, hsc, htc, hdt] using hrep.1
              · simpa [processDevice, hsc, htc, hdt] using hrep.2.1
              · simpa [processDevice, hsc, htc, hdt] using hrep.2.2.1
              · simpa [processDevice, hsc, htc, hdt] using hrep.2.2.2

lemma runDevices_replay (cfg cfg' : Config) (o1 o2 : BskyOracle) (clock1 clock2 : Nat → Nat)
    (net : String → Option Json) (devs : List (String × String)) :
    ∀ s t : RunState, t.crashed = s.crashed →
      (∀ dv vv rt,
        hasTriple (runDevices cfg o1 clock1 net s devs).db.records dv vv rt = true →
        hasTriple t.db.records dv vv rt = true) →
      (runDevices cfg' o2 clock2 net t devs).db = t.db ∧
      (runDevices cfg' o2 clock2 net t devs).bsky = t.bsky ∧
      (runDevices cfg' o2 clock2 net t devs).events = t.events ∧
      (runDevices cfg' o2 clock2 net t devs).crashed =
        (runDevices cfg o1 clock1 net s devs).crashed := by
  induction devs with
  | nil => intro s t hc _; exact ⟨rfl, rfl, rfl, hc⟩
  | cons du rest ih =>
      intro s t hc cover
      have cover1 : ∀ dv vv rt,
          hasTriple (processDevice cfg o1 clock1 s du.1
              (fetch_version_data net du.2)).db.records dv vv rt = true →
          hasTriple t.db.records dv vv rt = true := by
        intro dv vv rt h
        refine cover dv vv rt ?_
        rw [runDevices_cons]
        obtain ⟨dtail, etail, hd, _⟩ := runDevices_shape cfg o1 clock1 net rest
          (processDevice cfg o1 clock1 s du.1 (fetch_version_data net du.2))
        rw [hd]
        exact hasTriple_mono _ h
      obtain ⟨h1, h2, h3, h4⟩ := processDevice_replay cfg cfg' o1 o2 clock1 clock2 du.1
        (fetch_version_data net du.2) hc cover1
      have cover2 : ∀ dv vv rt,
          hasTriple (runDevices cfg o1 clock1 net (processDevice cfg o1 clock1 s du.1
              (fetch_version_data net du.2)) rest).db.records dv vv rt = true →
          hasTriple (processDevice cfg' o2 clock2 t du.1
              (fetch_version_data net du.2)).db.records dv vv rt = true := by
        intro dv vv rt h
        rw [h1]
        refine cover dv vv rt ?_
        rw [runDevices_cons]
        exact h
      obtain ⟨g1, g2, g3, g4⟩ := ih (processDevice cfg o1 clock1 s du.1
          (fetch_version_data net du.2))
        (processDevice cfg' o2 clock2 t du.1 (fetch_version_data net du.2)) h4 cover2
      rw [runDevices_cons, runDevices_cons]
      exact ⟨g1.trans h1, g2.trans h2, g3.trans h3, g4⟩

lemma mainRun_eq (cfg : Config) (o : BskyOracle) (clock : Nat → Nat)
    (net : String → Option Json) (db0 : DB) (bsky0 : BskyState) :
    mainRun cfg o clock net db0 bsky0 =
      (if (runDevices cfg o clock net ⟨db0, bsky0, [], [], false, false⟩ URLS).newFlag
          && !(runDevices cfg o clock net ⟨db0, bsky0, [], [], false, false⟩ URLS).crashed
       then { runDevices cfg o clock net ⟨db0, bsky0, [], [], false, false⟩ URLS with
              events := (runDevices cfg o clock net
                ⟨db0, bsky0, [], [], false, false⟩ URLS).events ++ [.rssGen] }
       else runDevices cfg o clock net ⟨db0, bsky0, [], [], false, false⟩ URLS) := rfl

lemma mainRun_db (cfg : Config) (o : BskyOracle) (clock : Nat → Nat)
    (net : String → Option Json) (db0 : DB) (bsky0 : BskyState) :
    (mainRun cfg o clock net db0 bsky0).db =
      (runDevices cfg o clock net ⟨db0, bsky0, [], [], false, false⟩ URLS).db := by
  rw [mainRun_eq]
  split <;> rfl

lemma runDevices_no_crash {cfg : Config} {o : BskyOracle} {clock : Nat → Nat}
    {net : String → Option Json} (devs : List (String × String)) :
    ∀ st : RunState, st.crashed = false →
      (∀ du ∈ devs, manifestOkOpt (net du.2) = true) →
      (runDevices cfg o clock net st devs).crashed = false := by
  induction devs with
  | nil => intro st hc _; exact hc
  | cons du rest ih =>
      intro st hc hwf
      rw [runDevices, List.foldl_cons]
      exact ih _ (processDevice_no_crash hc (hwf du (by simp)))
        (fun d hd => hwf d (by simp [hd]))

/-! ## Uniqueness of the dedupe key -/

lemma store_version_uniq {cfg : Config} {o : BskyOracle} {db : DB} {bsky : BskyState}
    {now : Nat} {device : String} {version apk_url : Json} {rty : String}
    (h : Uniq db) :
    Uniq (store_version cfg o db bsky now device version apk_url rty).db := by
  cases hv : sqliteBind version with
  | val v =>
      cases hu : sqliteBind apk_url with
      | val u =>
          cases ht : hasTriple db.records device v rty
          · have hne : ¬ ((device, v, rty) ∈ db.records.map tripleOf) := by
              intro hmem
              have hT := hasTriple_iff_mem.mpr hmem
              rw [ht] at hT
              exact Bool.false_ne_true hT
            have hrec : (store_version cfg o db bsky now device version apk_url rty).db.records
                = db.records ++ [⟨db.nextId, device, v, u, rty, now⟩] := by
              simp [store_version, hv, hu, ht]
            rw [Uniq, hrec, List.map_append]
            refine List.Nodup.append h (by simp) ?_
            intro x hx hx2
            simp only [List.map_cons, List.map_nil, List.mem_singleton, tripleOf] at hx2
            rw [hx2] at hx
            exact hne hx
          · rw [store_version_dup hv hu ht]
            exact h
      | nullv =>
          rw [store_version_null_caught (Or.inr hu) (by simp [hv]) (by simp [hu])]
          exact h
      | unsupported =>
          rw [store_version_raised_right (by simp [hv]) hu]
          exact h
  | nullv =>
      cases hu : sqliteBind apk_url with
      | val u =>
          rw [store_version_null_caught (Or.inl hv) (by simp [hv]) (by simp [hu])]
          exact h
      | nullv =>
          rw [store_version_null_caught (Or.inl hv) (by simp [hv]) (by simp [hu])]
          exact h
      | unsupported =>
          rw [store_version_raised_right (by simp [hv]) hu]
          exact h
  | unsupported =>
      rw [store_version_raised_left hv]
      exact h

lemma attemptStep_uniq {cfg : Config} {o : BskyOracle} {clock : Nat → Nat}
    {device : String} {data : Json} {st : RunState} {rty : String}
    (h : Uniq st.db) :
    Uniq (attemptStep cfg o clock device data st rty).db := by
  unfold attemptStep
  split
  · exact h
  split
  · split
    · split
      · exact store_version_uniq h
      · exact h
    · exact h
  · exact h

lemma attemptFold_uniq {cfg : Config} {o : BskyOracle} {clock : Nat → Nat}
    {device : String} {data : Json} (rtys : List String) :
    ∀ st : RunState, Uniq st.db →
      Uniq ((rtys.foldl (attemptStep cfg o clock device data) st)).db := by
  induction rtys with
  | nil => intro st h; exact h
  | cons rty rest ih =>
      intro st h
      rw [List.foldl_cons]
      exact ih _ (attemptStep_uniq h)

lemma processDevice_uniq {cfg : Config} {o : BskyOracle} {clock : Nat → Nat}
    {st : RunState} {device : String} {data : Option Json}
    (h : Uniq st.db) :
    Uniq (processDevice cfg o clock st device data).db := by
  unfold processDevice
  split
  · exact h
  · split
    · split
      · exact attemptFold_uniq releaseTypes st h
      · exact h
    · exact h

lemma runDevices_uniq {cfg : Config} {o : BskyOracle} {clock : Nat → Nat}
    {net : String → Option Json} (devs : List (String × String)) :
    ∀ st : RunState, Uniq st.db → Uniq (runDevices cfg o clock net st devs).db := by
  induction devs with
  | nil => intro st h; exact h
  | cons du rest ih =>
      intro st h
      rw [runDevices_cons]
      exact ih _ (processDevice_uniq h)

lemma mainRun_uniq {cfg : Config} {o : BskyOracle} {clock : Nat → Nat}
    {net : String → Option Json} {db0 : DB} {bsky0 : BskyState}
    (h : Uniq db0) :
    Uniq (mainRun cfg o clock net db0 bsky0).db := by
  rw [mainRun_db]
  exact runDevices_uniq URLS ⟨db0, bsky0, [], [], false, false⟩ h

lemma runAll_cons (ri : RunInput) (rs : List RunInput) (db0 : DB) :
    runAll (ri :: rs) db0 = runAll rs (mainRun ri.cfg ri.o ri.clock ri.net db0 ri.bsky0).db :=
  rfl

lemma runAll_uniq (rs : List RunInput) : ∀ db0 : DB, Uniq db0 → Uniq (runAll rs db0) := by
  induction rs with
  | nil => intro db0 h; exact h
  | cons ri rest ih =>
      intro db0 h
      rw [runAll_cons]
      exact ih _ (mainRun_uniq h)

/-! ## Ordering of the feed query -/

lemma insortDesc_mem {r x : Record} :
    ∀ {l : List Record}, x ∈ insortDesc r l ↔ x = r ∨ x ∈ l := by
  intro l
  induction l with
  | nil => simp [insortDesc]
  | cons a as ih =>
      by_cases h : r.first_seen ≤ a.first_seen
      · rw [insortDesc, if_pos h]
        simp only [List.mem_cons, ih]
        tauto
      · rw [insortDesc, if_neg h]
        simp only [List.mem_cons]

lemma insortDesc_sorted {r : Record} :
    ∀ {l : List Record}, DescSorted l → DescSorted (insortDesc r l) := by
  intro l
  induction l with
  | nil =>
      intro _
      rw [insortDesc]
      exact List.pairwise_singleton _ _
  | cons a as ih =>
      intro h
      rw [DescSorted, List.pairwise_cons] at h
      obtain ⟨ha, has⟩ := h
      by_cases hle : r.first_seen ≤ a.first_seen
      · rw [insortDesc, if_pos hle, DescSorted, List.pairwise_cons]
        refine ⟨?_, ih has⟩
        intro y hy
        rcases insortDesc_mem.mp hy with rfl | hy'
        · exact hle
        · exact ha y hy'
      · rw [insortDesc, if_neg hle, DescSorted, List.pairwise_cons]
        refine ⟨?_, List.pairwise_cons.mpr ⟨ha, has⟩⟩
        intro y hy
        rcases List.mem_cons.mp hy with rfl | hy'
        · exact le_of_lt (lt_of_not_le hle)
        · exact le_trans (ha y hy') (le_of_lt (lt_of_not_le hle))

lemma foldl_insort_sorted : ∀ rs acc : List Record, DescSorted acc →
    DescSorted (rs.foldl (fun a r => insortDesc r a) acc) := by
  intro rs
  induction rs with
  | nil => intro acc h; exact h
  | cons r rest ih =>
      intro acc h
      rw [List.foldl_cons]
      exact ih _ (insortDesc_sorted h)

lemma recentRecords_sorted (db : DB) : DescSorted (recentRecords db) := by
  rw [recentRecords]
  exact List.Pairwise.sublist (List.take_sublist _ _)
    (foldl_insort_sorted db.records [] (List.Pairwise.nil))

lemma recentRecords_two {r1 r2 : Record} (n : Nat) (h : r1.first_seen < r2.first_seen) :
    recentRecords ⟨[r1, r2], n⟩ = [r2, r1] := by
  rw [recentRecords]
  simp only [List.foldl_cons, List.foldl_nil, insortDesc]
  rw [if_neg (not_le.mpr h)]
  exact List.take_of_length_le (by simp)

/-! ## Which insert attempts a manifest produces -/

lemma attemptFold_calls {cfg : Config} {o : BskyOracle} {clock : Nat → Nat}
    {device : String} {kvs : List (String × Json)}
    (hall : kvs.all (fun kv => scalarJson kv.2) = true) (rtys : List String) :
    ∀ st : RunState, st.crashed = false →
      ((rtys.foldl (attemptStep cfg o clock device (.obj kvs)) st)).calls =
        st.calls ++ (rtys.filter (fun rty =>
            objHas kvs (rty ++ "-version") && objHas kvs (rty ++ "-url"))).map
          (fun rty => (device, rty, objGet kvs (rty ++ "-version"),
            objGet kvs (rty ++ "-url"))) := by
  induction rtys with
  | nil => intro st hc; simp
  | cons rty rest ih =>
      intro st hc
      rw [List.foldl_cons]
      cases hb : objHas kvs (rty ++ "-version") && objHas kvs (rty ++ "-url")
      · rw [attemptStep_obj_miss hb hc, ih st hc, List.filter_cons]
        simp [hb]
      · have hb' := hb
        rw [Bool.and_eq_true] at hb'
        obtain ⟨hv, hu⟩ := hb'
        rw [attemptStep_obj_hit hall hv hu hc, ih _ rfl, List.filter_cons]
        simp [hb, List.append_assoc]

lemma processDevice_calls {cfg : Config} {o : BskyOracle} {clock : Nat → Nat}
    {st : RunState} {device : String} {kvs : List (String × Json)}
    (hall : kvs.all (fun kv => scalarJson kv.2) = true) (hc : st.crashed = false) :
    (processDevice cfg o clock st device (some (.obj kvs))).calls =
      st.calls ++ (releaseTypes.filter (fun rty =>
          objHas kvs (rty ++ "-version") && objHas kvs (rty ++ "-url"))).map
        (fun rty => (device, rty, objGet kvs (rty ++ "-version"),
          objGet kvs (rty ++ "-url"))) := by
  by_cases hk : kvs.isEmpty
  · have hnil : kvs = [] := by
      cases kvs
      · rfl
      · simp [List.isEmpty] at hk
    subst hnil
    simp [processDevice, hc, Json.truthy, objHas, releaseTypes]
  · have ht : (Json.obj kvs).truthy = true := by simp [Json.truthy, hk]
    have hred : processDevice cfg o clock st device (some (.obj kvs)) =
        releaseTypes.foldl (attemptStep cfg o clock device (.obj kvs)) st := by
      simp [processDevice, hc, ht]
    rw [hred]
    exact attemptFold_calls hall releaseTypes st hc

/-! ## Fetch-failure isolation -/

lemma processDevice_none (cfg : Config) (o : BskyOracle) (clock : Nat → Nat)
    (st : RunState) (device : String) :
    processDevice cfg o clock st device none = st := by
  unfold processDevice
  split
  · rfl
  · rfl

lemma runDevices_keep {cfg : Config} {o : BskyOracle} {clock : Nat → Nat}
    {net : String → Option Json} (devs : List (String × String)) (st : RunState)
    (hc : st.crashed = false)
    (hwf : ∀ du ∈ devs, manifestOkOpt (net du.2) = true)
    {b v rt : String} {e : Ev}
    (hT : hasTriple st.db.records b v rt = true) (hE : e ∈ st.events) :
    (runDevices cfg o clock net st devs).crashed = false ∧
    hasTriple (runDevices cfg o clock net st devs).db.records b v rt = true ∧
    e ∈ (runDevices cfg o clock net st devs).events := by
  obtain ⟨dtail, etail, hd, he⟩ := runDevices_shape cfg o clock net devs st
  refine ⟨runDevices_no_crash devs st hc hwf, ?_, ?_⟩
  · rw [hd]; exact hasTriple_mono _ hT
  · rw [he]; exact List.mem_append_left _ hE

/-- Processing the device `b` whose manifest carries exactly the beta pair
with a novel (b, v, beta) triple: the run survives, the triple is stored, and
(with Pushover credentials configured) the push notification call fires. -/
lemma processDevice_beta_insert {cfg : Config} (o : BskyOracle) (clock : Nat → Nat)
    {st : RunState} {b v u : String}
    (hpu : cfg.pushoverUserKey = true) (hpt : cfg.pushoverApiToken = true)
    (hc : st.crashed = false)
    (hnov : hasTriple st.db.records b v "beta" = false) :
    (processDevice cfg o clock st b (some (.obj
        [("beta-version", .str v), ("beta-url", .str u)]))).crashed = false ∧
    hasTriple (processDevice cfg o clock st b (some (.obj
        [("beta-version", .str v), ("beta-url", .str u)]))).db.records b v "beta" = true ∧
    Ev.pushoverCall b v "beta" ∈ (processDevice cfg o clock st b (some (.obj
        [("beta-version", .str v), ("beta-url", .str u)]))).events := by
  have hall : ([("beta-version", Json.str v), ("beta-url", Json.str u)]).all
      (fun kv => scalarJson kv.2) = true := rfl
  have hmiss1 : (objHas [("beta-version", Json.str v), ("beta-url", Json.str u)]
      ("std" ++ "-version") && objHas [("beta-version", Json.str v), ("beta-url", Json.str u)]
      ("std" ++ "-url")) = false := rfl
  have hmiss3 : (objHas [("beta-version", Json.str v), ("beta-url", Json.str u)]
      ("alpha" ++ "-version") && objHas [("beta-version", Json.str v), ("beta-url", Json.str u)]
      ("alpha" ++ "-url")) = false := rfl
  have hbv : objHas [("beta-version", Json.str v), ("beta-url", Json.str u)]
      ("beta" ++ "-version") = true := rfl
  have hbu : objHas [("beta-version", Json.str v), ("beta-url", Json.str u)]
      ("beta" ++ "-url") = true := rfl
  have hred : processDevice cfg o clock st b (some (.obj
      [("beta-version", .str v), ("beta-url", .str u)])) =
      releaseTypes.foldl (attemptStep cfg o clock b
        (.obj [("beta-version", .str v), ("beta-url", .str u)])) st := by
    simp [processDevice, hc, Json.truthy]
  rw [hred, releaseTypes, List.foldl_cons, attemptStep_obj_miss hmiss1 hc,
    List.foldl_cons, attemptStep_obj_hit hall hbv hbu hc,
    List.foldl_cons, attemptStep_obj_miss hmiss3 rfl, List.foldl_nil]
  have hog1 : objGet [("beta-version", Json.str v), ("beta-url", Json.str u)]
      ("beta" ++ "-version") = Json.str v := rfl
  have hog2 : objGet [("beta-version", Json.str v), ("beta-url", Json.str u)]
      ("beta" ++ "-url") = Json.str u := rfl
  rw [hog1, hog2]
  refine ⟨rfl, ?_, ?_⟩
  · exact store_version_hasTriple cfg o st.db st.bsky (clock st.db.nextId) b "beta" rfl rfl
  · have hev : (store_version cfg o st.db st.bsky (clock st.db.nextId) b
        (Json.str v) (Json.str u) "beta").events =
        Ev.pushoverCall b v "beta" ::
          ((if cfg.blueskyUsername && cfg.blueskyAppPassword
            then post_to_bluesky cfg o st.bsky else (st.bsky, [])).2).map Ev.bsky := by
      simp [store_version, sqliteBind, hnov, send_pushover_alert, hpu, hpt]
    rw [hev]
    simp

/-- Along the device loop: if `b`'s unique configured URL serves a beta-pair
manifest with a triple absent from the current table, then once `(b, ub)` is
reached the record is inserted and the push call fires, and both survive to
the end of the loop. -/
lemma runDevices_b_insert {cfg : Config} {o : BskyOracle} {clock : Nat → Nat}
    {net : String → Option Json} {b ub v u : String}
    (hpu : cfg.pushoverUserKey = true) (hpt : cfg.pushoverApiToken = true)
    (hfb : net ub = some (.obj [("beta-version", .str v), ("beta-url", .str u)])) :
    ∀ (devs : List (String × String)) (st : RunState), st.crashed = false →
      (∀ du ∈ devs, du.1 = b → du.2 = ub) →
      (∀ du ∈ devs, manifestOkOpt (net du.2) = true) →
      (b, ub) ∈ devs →
      hasTriple st.db.records b v "beta" = false →
      (runDevices cfg o clock net st devs).crashed = false ∧
      hasTriple (runDevices cfg o clock net st devs).db.records b v "beta" = true ∧
      Ev.pushoverCall b v "beta" ∈ (runDevices cfg o clock net st devs).events := by
  intro devs
  induction devs with
  | nil => intro st _ _ _ hmem _; exact absurd hmem (List.not_mem_nil _)
  | cons du rest ih =>
      intro st hc hbu hwf hmem hnov
      rw [runDevices_cons]
      by_cases hdb : du.1 = b
      · have hdu2 : du.2 = ub := hbu du (List.mem_cons_self du rest) hdb
        rw [hdb, hdu2]
        have hdata : fetch_version_data net ub =
            some (Json.obj [("beta-version", .str v), ("beta-url", .str u)]) := hfb
        rw [hdata]
        obtain ⟨g1, g2, g3⟩ := processDevice_beta_insert o clock hpu hpt hc hnov
        exact runDevices_keep rest _ g1 (fun d hd => hwf d (List.mem_cons_of_mem du hd)) g2 g3
      · have hc1 : (processDevice cfg o clock st du.1
            (fetch_version_data net du.2)).crashed = false :=
          processDevice_no_crash hc (hwf du (List.mem_cons_self du rest))
        have hnov1 : hasTriple (processDevice cfg o clock st du.1
            (fetch_version_data net du.2)).db.records b v "beta" = false := by
          obtain ⟨dtail, etail, hd, he, hdev⟩ :=
            processDevice_shape cfg o clock st du.1 (fetch_version_data net du.2)
          rw [hd, hasTriple_append, hnov, Bool.false_or]
          cases hq : hasTriple dtail b v "beta"
          · rfl
          · exfalso
            obtain ⟨r, hr, hrt⟩ := List.mem_map.mp (hasTriple_iff_mem.mp hq)
            have : r.device = b := by
              have := congrArg Prod.fst hrt
              simpa [tripleOf] using this
            exact hdb (((hdev r hr).symm).trans this)
        have hmem1 : (b, ub) ∈ rest := by
          rcases List.mem_cons.mp hmem with heq | h
          · exact absurd (congrArg Prod.fst heq.symm) hdb
          · exact h
        exact ih _ hc1 (fun d hd h => hbu d (List.mem_cons_of_mem du hd) h)
          (fun d hd => hwf d (List.mem_cons_of_mem du hd)) hmem1 hnov1

/-! ## Concrete run fixtures -/

/-- No credentials configured. -/
def noCredCfg : Config := ⟨false, false, false, false⟩

/-- Only the Pushover credential pair configured. -/
def pushCfg : Config := ⟨true, true, false, false⟩

/-- Only the Bluesky credential pair configured. -/
def bskyCfg : Config := ⟨false, false, true, true⟩

/-- An oracle whose login and post attempts all fail. -/
def failOracle : BskyOracle := ⟨fun _ => false, fun _ => false⟩

/-- The fresh-process Bluesky state: the global `client` is `None`. -/
def freshBsky : BskyState := ⟨false, 0, 0⟩

/-- A network where only the `bolt` device's URL serves a manifest (a single
beta pair) and every other fetch fails. -/
def betaNet : String → Option Json :=
  fun url =>
    if url == "https://bolt.wahoofitness.com/boltapp/version.json-bolt"
    then some (.obj [("beta-version", .str "2001"), ("beta-url", .str "http://apk/2001")])
    else none

/-- A table already holding (bolt2, 100, std). -/
def dupDB : DB := ⟨[⟨1, "bolt2", "100", "http://apk/100", "std", 5⟩], 2⟩

/-- A network where `bolt2`'s URL re-serves exactly the already-stored std
pair and every other fetch fails. -/
def dupNet : String → Option Json :=
  fun url =>
    if url == "https://bolt.wahoofitness.com/boltapp/version.json-bolt2"
    then some (.obj [("std-version", .str "100"), ("std-url", .str "http://apk/100")])
    else none

/-! ## The claims -/

/-- C1: across every sequence of runs starting from a fresh table, the
(device, version, release_type) triple is unique over all stored rows; and a
`store_version` call whose parameters bind as SQL text `v`/`u` with the
(device, v, release_type) triple already present returns normally — the
`IntegrityError` is caught inside `store_version` — leaving the table (urls
and `first_seen` of existing rows included), the session and the event log
unchanged, and reporting the caught-duplicate outcome instead of raising. -/
theorem store_uniqueness :
    (∀ rs : List RunInput, Uniq (runAll rs initialDB)) ∧
    (∀ (cfg : Config) (o : BskyOracle) (db : DB) (bsky : BskyState) (now : Nat)
        (device : String) (version apk_url : Json) (rty v u : String),
      sqliteBind version = .val v → sqliteBind apk_url = .val u →
      hasTriple db.records device v rty = true →
      store_version cfg o db bsky now device version apk_url rty =
        { db := db, bsky := bsky, events := [], res := .integrityCaught }) := by
  constructor
  · intro rs
    exact runAll_uniq rs initialDB (by simp [Uniq, initialDB])
  · intro cfg o db bsky now device version apk_url rty v u hv hu ht
    exact store_version_dup hv hu ht

theorem store_uniqueness_witness :
    Uniq (runAll [⟨pushCfg, failOracle, fun _ => 7, betaNet, freshBsky⟩] initialDB) ∧
    store_version noCredCfg failOracle
        ⟨[⟨1, "bolt", "2001", "http://apk/2001", "beta", 7⟩], 2⟩ freshBsky 9
        "bolt" (.str "2001") (.str "http://apk/2001") "beta" =
      { db := ⟨[⟨1, "bolt", "2001", "http://apk/2001", "beta", 7⟩], 2⟩,
        bsky := freshBsky, events := [], res := .integrityCaught } :=
  ⟨store_uniqueness.1 _,
   store_uniqueness.2 noCredCfg failOracle
     ⟨[⟨1, "bolt", "2001", "http://apk/2001", "beta", 7⟩], 2⟩ freshBsky 9
     "bolt" (.str "2001") (.str "http://apk/2001") "beta" "2001" "http://apk/2001"
     rfl rfl (by decide)⟩

/-- C2: running `main` twice against identical fetched manifests (the same
`net`; the clocks, Bluesky oracles and fresh per-process session states of
the two runs are arbitrary) leaves the stored records after the second run
equal to those after the first, and the second run makes zero push or social
notification calls. -/
theorem pipeline_idempotent (cfg : Config) (o1 o2 : BskyOracle)
    (clock1 clock2 : Nat → Nat) (net : String → Option Json) (db0 : DB)
    (b1 b2 : BskyState) :
    (mainRun cfg o2 clock2 net (mainRun cfg o1 clock1 net db0 b1).db b2).db =
      (mainRun cfg o1 clock1 net db0 b1).db ∧
    ((mainRun cfg o2 clock2 net (mainRun cfg o1 clock1 net db0 b1).db b2).events.countP
      Ev.isNotifCall) = 0 := by
  have hcov : ∀ dv vv rt,
      hasTriple (runDevices cfg o1 clock1 net
        ⟨db0, b1, [], [], false, false⟩ URLS).db.records dv vv rt = true →
      hasTriple (RunState.mk (mainRun cfg o1 clock1 net db0 b1).db
        b2 [] [] false false).db.records dv vv rt = true := by
    intro dv vv rt h
    show hasTriple (mainRun cfg o1 clock1 net db0 b1).db.records dv vv rt = true
    rw [mainRun_db]
    exact h
  obtain ⟨h1, h2, h3, h4⟩ := runDevices_replay cfg cfg o1 o2 clock1 clock2 net URLS
    ⟨db0, b1, [], [], false, false⟩
    ⟨(mainRun cfg o1 clock1 net db0 b1).db, b2, [], [], false, false⟩ rfl hcov
  constructor
  · rw [mainRun_db cfg o2 clock2 net (mainRun cfg o1 clock1 net db0 b1).db b2, h1]
  · rw [mainRun_eq]
    split
    · simp [h3, Ev.isNotifCall]
    · simp [h3, Ev.isNotifCall]

/-- C3 (code-bug evidence): a run whose only attempted insert hits the
duplicate case stores nothing, yet the feed is regenerated.  `store_version`
catches the `IntegrityError` itself and returns normally, so `main` executes
`new_version_recorded = True` for duplicates as well, and main's
`except sqlite3.IntegrityError: continue` clause is dead code; the flag's
name and that dead handler show the intent the specification describes. -/
theorem duplicate_run_regenerates_feed :
    (mainRun noCredCfg failOracle (fun _ => 9) dupNet dupDB freshBsky).db = dupDB ∧
    (mainRun noCredCfg failOracle (fun _ => 9) dupNet dupDB freshBsky).events = [.rssGen] :=
  ⟨rfl, rfl⟩

/-- C4: on a (scalar-valued) object manifest the device loop calls
`store_version` exactly for the release types whose `"<rty>-version"` and
`"<rty>-url"` keys are both present, in the fixed order std, beta, alpha
(the logged call list equals the filter of `releaseTypes` in order); a
manifest holding only the beta pair yields exactly one insert attempt, the
beta one. -/
theorem manifest_attempt_selection :
    (∀ (cfg : Config) (o : BskyOracle) (clock : Nat → Nat) (st : RunState)
        (device : String) (kvs : List (String × Json)),
      st.crashed = false → kvs.all (fun kv => scalarJson kv.2) = true →
      (processDevice cfg o clock st device (some (.obj kvs))).calls =
        st.calls ++ (releaseTypes.filter (fun rty =>
            objHas kvs (rty ++ "-version") && objHas kvs (rty ++ "-url"))).map
          (fun rty => (device, rty, objGet kvs (rty ++ "-version"),
            objGet kvs (rty ++ "-url")))) ∧
    (∀ (cfg : Config) (o : BskyOracle) (clock : Nat → Nat) (st : RunState)
        (device : String), st.crashed = false →
      (processDevice cfg o clock st device (some (.obj
          [("beta-version", .str "3310"), ("beta-url", .str "http://apk/3310")]))).calls =
        st.calls ++ [(device, "beta", .str "3310", .str "http://apk/3310")]) := by
  constructor
  · intro cfg o clock st device kvs hc hall
    exact processDevice_calls hall hc
  · intro cfg o clock st device hc
    rw [processDevice_calls (show ([("beta-version", Json.str "3310"),
      ("beta-url", Json.str "http://apk/3310")]).all (fun kv => scalarJson kv.2) = true
      from rfl) hc]
    rfl

theorem manifest_attempt_selection_witness :
    (processDevice noCredCfg failOracle (fun _ => 0)
        ⟨initialDB, freshBsky, [], [], false, false⟩ "bolt2"
        (some (.obj [("beta-version", .str "3310"),
          ("beta-url", .str "http://apk/3310")]))).calls =
      [("bolt2", "beta", .str "3310", .str "http://apk/3310")] := by
  rw [manifest_attempt_selection.2 noCredCfg failOracle (fun _ => 0)
    ⟨initialDB, freshBsky, [], [], false, false⟩ "bolt2" rfl]
  rfl

/-- C5: in a device-loop run where device `a`'s fetch fails and device `b`'s
fetch succeeds with a beta-pair manifest whose (b, v, beta) triple is novel —
all fetched manifests being well-formed (scalar-valued JSON objects or falsy)
and `b` mapped to a single URL — the failing device's iteration is a no-op,
the loop completes without an uncaught exception (the process then exits
successfully), `b`'s record is stored, and, Pushover credentials being
configured, the push notification call for it fires.  `main` is this loop
at `devs := URLS`. -/
theorem fetch_failure_isolation (cfg : Config) (o : BskyOracle) (clock : Nat → Nat)
    (net : String → Option Json) (devs : List (String × String))
    (a ua b ub v u : String) (db0 : DB) (bsky0 : BskyState)
    (hpu : cfg.pushoverUserKey = true) (hpt : cfg.pushoverApiToken = true)
    (ha : (a, ua) ∈ devs) (hb : (b, ub) ∈ devs)
    (hfa : net ua = none)
    (hfb : net ub = some (.obj [("beta-version", .str v), ("beta-url", .str u)]))
    (hbu : ∀ du ∈ devs, du.1 = b → du.2 = ub)
    (hwf : ∀ du ∈ devs, manifestOkOpt (net du.2) = true)
    (hnov : hasTriple db0.records b v "beta" = false) :
    (runDevices cfg o clock net ⟨db0, bsky0, [], [], false, false⟩ devs).crashed = false ∧
    hasTriple (runDevices cfg o clock net
      ⟨db0, bsky0, [], [], false, false⟩ devs).db.records b v "beta" = true ∧
    Ev.pushoverCall b v "beta" ∈
      (runDevices cfg o clock net ⟨db0, bsky0, [], [], false, false⟩ devs).events ∧
    (∀ st : RunState, processDevice cfg o clock st a (fetch_version_data net ua) = st) := by
  obtain ⟨g1, g2, g3⟩ := runDevices_b_insert hpu hpt hfb devs
    ⟨db0, bsky0, [], [], false, false⟩ rfl hbu hwf hb hnov
  refine ⟨g1, g2, g3, ?_⟩
  intro st
  rw [show fetch_version_data net ua = none from hfa]
  exact processDevice_none cfg o clock st a

theorem fetch_failure_isolation_witness :
    (runDevices pushCfg failOracle (fun _ => 7) betaNet
      ⟨initialDB, freshBsky, [], [], false, false⟩ URLS).crashed = false ∧
    hasTriple (runDevices pushCfg failOracle (fun _ => 7) betaNet
      ⟨initialDB, freshBsky, [], [], false, false⟩ URLS).db.records
      "bolt" "2001" "beta" = true ∧
    Ev.pushoverCall "bolt" "2001" "beta" ∈
      (runDevices pushCfg failOracle (fun _ => 7) betaNet
        ⟨initialDB, freshBsky, [], [], false, false⟩ URLS).events ∧
    processDevice pushCfg failOracle (fun _ => 7)
        ⟨initialDB, freshBsky, [], [], false, false⟩ "elemnt"
        (fetch_version_data betaNet "https://bolt.wahoofitness.com/boltapp/version.json") =
      ⟨initialDB, freshBsky, [], [], false, false⟩ := by
  obtain ⟨h1, h2, h3, h4⟩ := fetch_failure_isolation pushCfg failOracle (fun _ => 7)
    betaNet URLS "elemnt" "https://bolt.wahoofitness.com/boltapp/version.json"
    "bolt" "https://bolt.wahoofitness.com/boltapp/version.json-bolt"
    "2001" "http://apk/2001" initialDB freshBsky
    rfl rfl (by decide) (by decide) rfl rfl (by decide) (by decide) rfl
  exact ⟨h1, h2, h3, h4 ⟨initialDB, freshBsky, [], [], false, false⟩⟩

/-- C6 counterexample: two records with equal `first_seen`.  Under the
claimed tie-break (surrogate key descending) the second-inserted record would
come first; the query (`ORDER BY first_seen DESC`, no secondary key) does
not do that — the model returns the table-scan order, first-inserted first. -/
theorem recent_tie_order_counterexample :
    recentRecords ⟨[⟨1, "bolt", "100", "u1", "std", 10⟩,
        ⟨2, "ace", "200", "u2", "std", 10⟩], 3⟩ =
      [⟨1, "bolt", "100", "u1", "std", 10⟩, ⟨2, "ace", "200", "u2", "std", 10⟩] ∧
    (recentRecords ⟨[⟨1, "bolt", "100", "u1", "std", 10⟩,
        ⟨2, "ace", "200", "u2", "std", 10⟩], 3⟩).head? ≠
      some ⟨2, "ace", "200", "u2", "std", 10⟩ :=
  ⟨rfl, by decide⟩

/-- C6 amended: the feed query returns at most 100 records ordered newest
first by `first_seen`; the query specifies no tie-break for equal
`first_seen` (SQLite leaves that order unspecified; the model realises it as
the table-scan order, i.e. surrogate key ascending — not descending as
claimed).  The strict part of the claim holds: of two records where the
second-inserted has a strictly later `first_seen`, the later one is returned
first, and the feed's first entry title is
`"{device} - {version} ({release_type})"`. -/
theorem recent_records_order :
    (∀ db : DB, (recentRecords db).length ≤ 100 ∧ DescSorted (recentRecords db)) ∧
    (∀ (r1 r2 : Record) (n : Nat), r1.first_seen < r2.first_seen →
      recentRecords ⟨[r1, r2], n⟩ = [r2, r1]) ∧
    ((generate_rss ⟨-420⟩ ⟨[⟨1, "bolt2", "100", "http://x/100", "standard", 10⟩,
        ⟨2, "ace", "50", "http://y/50", "beta", 20⟩], 3⟩).map (fun e => e.title) =
      ["ace - 50 (beta)", "bolt2 - 100 (standard)"]) := by
  refine ⟨fun db => ⟨?_, recentRecords_sorted db⟩,
    fun r1 r2 n h => recentRecords_two n h, ?_⟩
  · rw [recentRecords]
    exact List.length_take_le _ _
  · rfl

theorem recent_records_order_witness :
    recentRecords ⟨[⟨1, "bolt2", "100", "http://x/100", "standard", 10⟩,
        ⟨2, "ace", "50", "http://y/50", "beta", 20⟩], 3⟩ =
      [⟨2, "ace", "50", "http://y/50", "beta", 20⟩,
       ⟨1, "bolt2", "100", "http://x/100", "standard", 10⟩] :=
  recent_records_order.2.1 ⟨1, "bolt2", "100", "http://x/100", "standard", 10⟩
    ⟨2, "ace", "50", "http://y/50", "beta", 20⟩ 3 (by decide)

/-- C7 (code-bug evidence): the store writes `first_seen` in the store's
local timezone (`datetime('now','localtime')`), but `generate_rss` localizes
the stored text **as UTC** (`pytz.utc.localize`) before converting to the
display timezone.  For a store running in the display timezone itself
(America/Denver, UTC-7, offset -420 minutes), a record stored at local wall
time 720 (12:00) is rendered at 720 + (-420) = 300 (05:00), while the claimed
store-local-to-display conversion renders 720 (12:00). -/
theorem pubdate_utc_misinterpretation :
    ((generate_rss ⟨-420⟩ ⟨[⟨1, "bolt2", "100", "http://x/100", "standard", 720⟩], 2⟩).map
        (fun e => e.pubDate)) = [300] ∧
    specPubDate 720 ⟨-420⟩ ⟨-420⟩ = 720 ∧ (300 : Int) ≠ 720 :=
  ⟨by decide, by decide, by decide⟩

/-- C8 counterexample: with Bluesky credentials present, a run that stores a
new record still regenerates the feed, and the social sink fires in the same
run: `generate_rss` is gated only on `new_version_recorded`, not on the
social configuration. -/
theorem social_and_feed_both_active :
    bskyCfg.blueskyUsername = true ∧ bskyCfg.blueskyAppPassword = true ∧
    Ev.bsky (.auth false) ∈
      (mainRun bskyCfg failOracle (fun _ => 7) betaNet initialDB freshBsky).events ∧
    Ev.rssGen ∈
      (mainRun bskyCfg failOracle (fun _ => 7) betaNet initialDB freshBsky).events :=
  ⟨rfl, rfl, by decide, by decide⟩

/-- C8 amended: feed regeneration is independent of the social
configuration: `main` regenerates the feed whenever the
`new_version_recorded` flag was set and the run did not crash — for every
configuration, including those with Bluesky credentials present, in which
case the social post and the feed regeneration both happen in the same run. -/
theorem feed_regen_independent_of_social (cfg : Config) (o : BskyOracle)
    (clock : Nat → Nat) (net : String → Option Json) (db0 : DB) (bsky0 : BskyState)
    (hflag : (runDevices cfg o clock net
      ⟨db0, bsky0, [], [], false, false⟩ URLS).newFlag = true)
    (hcr : (runDevices cfg o clock net
      ⟨db0, bsky0, [], [], false, false⟩ URLS).crashed = false) :
    Ev.rssGen ∈ (mainRun cfg o clock net db0 bsky0).events := by
  rw [mainRun_eq]
  simp [hflag, hcr]

theorem feed_regen_independent_of_social_witness :
    Ev.rssGen ∈
      (mainRun bskyCfg failOracle (fun _ => 7) betaNet initialDB freshBsky).events :=
  feed_regen_independent_of_social bskyCfg failOracle (fun _ => 7) betaNet
    initialDB freshBsky (by decide) (by decide)

/-- C9 counterexample: credentials present, client cached, the initial post
fails and the re-authentication also fails: exactly one re-authentication
attempt is made but the post is **not** retried — against the claim's
"exactly one re-authentication ... followed by exactly one retry". -/
theorem retry_skipped_on_failed_reauth :
    (post_to_bluesky bskyCfg failOracle ⟨true, 0, 0⟩).2 = [.post false, .auth false] ∧
    (post_to_bluesky bskyCfg failOracle ⟨true, 0, 0⟩).2.countP BskyEv.isAuth = 1 ∧
    (post_to_bluesky bskyCfg failOracle ⟨true, 0, 0⟩).2.countP BskyEv.isPost = 1 :=
  ⟨rfl, by decide, by decide⟩

/-- C9 amended: with missing credentials and no cached client the sink is a
no-op; per notification there are at most two post attempts and at most two
authentication attempts, at most one of which follows a post attempt (the
re-authentication); and with credentials present, a cached client and a
failing initial post, exactly one re-authentication follows, with exactly one
retry of the post if and only if that re-authentication succeeds.  The
function is total — post and login failures are swallowed, never raised. -/
theorem social_retry_behavior (cfg : Config) (o : BskyOracle) (st : BskyState) :
    ((cfg.blueskyUsername && cfg.blueskyAppPassword) = false → st.clientSome = false →
      post_to_bluesky cfg o st = (st, [])) ∧
    (post_to_bluesky cfg o st).2.countP BskyEv.isPost ≤ 2 ∧
    (post_to_bluesky cfg o st).2.countP BskyEv.isAuth ≤ 2 ∧
    ((post_to_bluesky cfg o st).2.dropWhile (fun e => !e.isPost)).countP BskyEv.isAuth ≤ 1 ∧
    ((cfg.blueskyUsername && cfg.blueskyAppPassword) = true → st.clientSome = true →
      o.postOk st.postCount = false →
      (post_to_bluesky cfg o st).2 =
        .post false :: .auth (o.loginOk st.loginCount) ::
          (if o.loginOk st.loginCount then [.post (o.postOk (st.postCount + 1))] else [])) := by
  obtain ⟨cs, lc, pc⟩ := st
  cases hcred : cfg.blueskyUsername && cfg.blueskyAppPassword <;>
    cases cs <;>
      cases hp1 : o.postOk pc <;>
        cases hl1 : o.loginOk lc <;>
          cases hl2 : o.loginOk (lc + 1) <;>
            refine ⟨?_, ?_, ?_, ?_, ?_⟩ <;>
              simp [post_to_bluesky, login_to_bluesky, hcred, hp1, hl1, hl2,
                BskyEv.isPost, BskyEv.isAuth]

theorem social_retry_behavior_witness :
    post_to_bluesky noCredCfg failOracle freshBsky = (freshBsky, []) :=
  (social_retry_behavior noCredCfg failOracle freshBsky).1 rfl rfl

/-- C10: falsy fetched data (`{}`, `null`, `0`, `""`, `false`, `[]`) takes
the same `Invalid data` branch as a fetch failure: the device iteration is
the same no-op in both cases — no insert attempt, the new-record flag
untouched — and the run continues with the next device. -/
theorem falsy_data_skipped :
    (∀ (cfg : Config) (o : BskyOracle) (clock : Nat → Nat) (st : RunState)
        (device : String) (j : Json), j.truthy = false →
      processDevice cfg o clock st device (some j) =
        processDevice cfg o clock st device none) ∧
    (∀ (cfg : Config) (o : BskyOracle) (clock : Nat → Nat) (st : RunState)
        (device : String), processDevice cfg o clock st device none = st) := by
  constructor
  · intro cfg o clock st device j hj
    unfold processDevice
    split
    · rfl
    · simp [hj]
  · intro cfg o clock st device
    exact processDevice_none cfg o clock st device

theorem falsy_data_skipped_witness :
    processDevice noCredCfg failOracle (fun _ => 0)
        ⟨initialDB, freshBsky, [], [], false, false⟩ "bolt" (some (.obj [])) =
      ⟨initialDB, freshBsky, [], [], false, false⟩ := by
  rw [falsy_data_skipped.1 noCredCfg failOracle (fun _ => 0)
    ⟨initialDB, freshBsky, [], [], false, false⟩ "bolt" (.obj []) rfl]
  exact falsy_data_skipped.2 noCredCfg failOracle (fun _ => 0)
    ⟨initialDB, freshBsky, [], [], false, false⟩ "bolt"

end WahooTracker
